import Mathlib

/-!
Shallow embedding of the django-resend webhook pipeline
(src/django_resend/models.py, utils.py, views.py) and proofs about it.

JSON values are modelled first-order (object/array spines inlined) so that
equality is decidable.  Machine state is the list of stored rows.  Django
specifics that the claims depend on are modelled explicitly:
  - `Signal.send` invokes listeners in order and propagates the first
    exception (Django's `send`, not `send_robust`);
  - `save(update_fields=[...])` writes exactly the listed fields of the
    in-memory object to the row with the same `event_id`;
  - querysets are lazy: `.update`, `.count` and iteration each evaluate the
    stored filter against the store as it is at that moment;
  - `.update()` on a sliced queryset raises;
  - Python truthiness drives `if not event_id:`, `if limit:`, `if event_type:`
    and the `or`-fallback chains;
  - `dict.get` on a non-dict raises `AttributeError`, which only the view's
    outer `except Exception` handler catches (returning a 500 response).
-/

namespace DjangoResend

/-- JSON values as produced by `json.loads`, with array and object spines
inlined as constructors so that `DecidableEq` can be derived. -/
inductive Json where
  | null : Json
  | bool (b : Bool) : Json
  | num (n : Int) : Json
  | str (s : String) : Json
  | arrNil : Json
  | arrCons (head : Json) (tail : Json) : Json
  | objNil : Json
  | objCons (key : String) (val : Json) (rest : Json) : Json
deriving DecidableEq, Repr

/-- Python `dict.get(key)`: `none` models Python `None` (key absent).
Only meaningful on object spines; the view checks `isObj` first, modelling
the `AttributeError` raised by `.get` on a non-dict. -/
def Json.get : Json → String → Option Json
  | .objCons k v rest, key => if k = key then some v else Json.get rest key
  | _, _ => none

/-- Python `dict.get(key, default)`. -/
def Json.getD (j : Json) (key : String) (default : Json) : Json :=
  match j.get key with
  | some v => v
  | none => default

/-- Whether the value is a Python dict (so `.get` works rather than raising). -/
def Json.isObj : Json → Bool
  | .objNil => true
  | .objCons _ _ _ => true
  | _ => false

/-- Python truthiness of a parsed JSON value. -/
def Json.truthy : Json → Bool
  | .null => false
  | .bool b => b
  | .num n => n != 0
  | .str s => s != ""
  | .arrNil => false
  | .arrCons _ _ => true
  | .objNil => false
  | .objCons _ _ _ => true

/-- Python `a or b` over possibly-absent values: the first operand if it is
truthy, otherwise the second (even if the second is falsy or `None`). -/
def pyOr (a b : Option Json) : Option Json :=
  match a with
  | some v => if v.truthy then some v else b
  | none => b

/-- Python `if x:` on a possibly-absent value. -/
def pyTruthy (a : Option Json) : Bool :=
  match a with
  | some v => v.truthy
  | none => false

/-- Processing status choices of `ResendWebhookEvent.status`. -/
inductive Status where
  | pending
  | processing
  | processed
  | failed
deriving DecidableEq, Repr

/-- One stored `ResendWebhookEvent` row (also used for the in-memory model
instance a Python caller holds). Times are abstract instants (`Int`). -/
structure Event where
  event_id : Json
  event_type : Json
  timestamp : Int
  email : Option Json
  message_id : Option Json
  payload : Json
  status : Status
  created_at : Int
  updated_at : Int
  processed_at : Option Int
  error_message : String
  retry_count : Nat
deriving DecidableEq, Repr

/-- The event table: rows in insertion order. -/
abbrev Store := List Event

/-- `save(update_fields=...)`: write the fields selected by `f` onto the row
whose `event_id` matches (that column is unique). -/
def storeSave (s : Store) (eid : Json) (f : Event → Event) : Store :=
  List.map (fun r => if r.event_id = eid then f r else r) s

/-- A connected signal receiver; an `error` outcome models the listener
raising an exception. -/
def Listener := Event → Except String Unit

/-- Django `Signal.send`: call each receiver in registration order and let
the first exception propagate (subsequent receivers do not run). -/
def signalSend (ls : List Listener) (e : Event) : Except String Unit :=
  match ls with
  | [] => .ok ()
  | l :: rest =>
    match l e with
    | .ok () => signalSend rest e
    | .error m => .error m

/-- `ResendWebhookEvent.mark_processing`: set status to processing on the
in-memory object and save `status` and `updated_at` (auto_now). -/
def mark_processing (e : Event) (s : Store) (now : Int) : Event × Store :=
  let e' := { e with status := Status.processing, updated_at := now }
  (e', storeSave s e.event_id
    (fun r => { r with status := e'.status, updated_at := e'.updated_at }))

/-- `ResendWebhookEvent.mark_processed`: set status to processed, stamp
`processed_at`, and save `status`, `processed_at`, `updated_at`. -/
def mark_processed (e : Event) (s : Store) (now : Int) : Event × Store :=
  let e' := { e with status := Status.processed, processed_at := some now,
                     updated_at := now }
  (e', storeSave s e.event_id
    (fun r => { r with status := e'.status, processed_at := e'.processed_at,
                       updated_at := e'.updated_at }))

/-- `ResendWebhookEvent.mark_failed`: set status to failed, record the error
message, bump `retry_count`, and save those fields plus `updated_at`. -/
def mark_failed (e : Event) (s : Store) (msg : String) (now : Int) :
    Event × Store :=
  let e' := { e with status := Status.failed, error_message := msg,
                     retry_count := e.retry_count + 1, updated_at := now }
  (e', storeSave s e.event_id
    (fun r => { r with status := e'.status, error_message := e'.error_message,
                       retry_count := e'.retry_count,
                       updated_at := e'.updated_at }))

/-- A consumer handler; an `error` outcome models the handler raising. -/
def Handler := Event → Except String Unit

/-- Result of one `process_event` call. `raised` is an exception escaping the
function (only possible when a `webhook_event_failed` receiver raises);
`event` is the caller's in-memory instance afterwards. -/
structure ProcResult where
  raised : Option String
  success : Bool
  event : Event
  store : Store
  handlerRan : Bool
  processedHookFired : Bool
  failedHookFired : Bool
deriving DecidableEq, Repr

/-- `utils.process_event(event, handler=None)`.  The guard reads the caller's
in-memory snapshot, and `mark_processing` saves unconditionally (no
affected-row-count check against the store). -/
def process_event (processedLs failedLs : List Listener) (now : Int)
    (event : Event) (s : Store) (handler : Option Handler) : ProcResult :=
  if event.status ≠ Status.pending then
    ⟨none, false, event, s, false, false, false⟩
  else
    let (e1, s1) := mark_processing event s now
    let handlerOutcome : Except String Unit :=
      match handler with
      | some h => h e1
      | none => .ok ()
    match handlerOutcome with
    | .error msg =>
      let (e2, s2) := mark_failed e1 s1 msg now
      match signalSend failedLs e2 with
      | .ok () => ⟨none, false, e2, s2, handler.isSome, false, true⟩
      | .error m => ⟨some m, false, e2, s2, handler.isSome, false, true⟩
    | .ok () =>
      let (e2, s2) := mark_processed e1 s1 now
      match signalSend processedLs e2 with
      | .ok () => ⟨none, true, e2, s2, handler.isSome, true, false⟩
      | .error m =>
        let (e3, s3) := mark_failed e2 s2 m now
        match signalSend failedLs e3 with
        | .ok () => ⟨none, false, e3, s3, handler.isSome, true, true⟩
        | .error m2 => ⟨some m2, false, e3, s3, handler.isSome, true, true⟩

/-- Stable insertion of an event into a list sorted by `created_at`. -/
def insertByCreated (e : Event) : List Event → List Event
  | [] => [e]
  | x :: xs =>
    if x.created_at ≤ e.created_at then x :: insertByCreated e xs
    else e :: x :: xs

/-- `order_by created_at` ascending (stable). -/
def sortByCreated (l : List Event) : List Event :=
  l.foldr insertByCreated []

/-- `utils.get_pending_events(limit=None, event_type=None)`: filter
status=pending, optionally filter by event_type (Python truthiness: an empty
string does not filter), order by `created_at`, optionally slice (a limit of
0 is falsy and does not slice). -/
def get_pending_events (s : Store) (limit : Option Nat)
    (event_type : Option String) : List Event :=
  let q1 := List.filter (fun e => e.status = Status.pending) s
  let q2 :=
    match event_type with
    | some t => if t ≠ "" then List.filter (fun e => e.event_type = Json.str t) q1 else q1
    | none => q1
  let q3 := sortByCreated q2
  match limit with
  | some n => if n ≠ 0 then q3.take n else q3
  | none => q3

/-- Statistics dict returned by the batch entry points. -/
structure Stats where
  total : Nat
  processed : Nat
  failed : Nat
deriving DecidableEq, Repr

/-- The loop body of `process_pending_events`: per event bump `total`, call
`process_event`, bump `processed` or `failed`; an exception escaping
`process_event` aborts the whole batch. -/
def processLoop (processedLs failedLs : List Listener) (now : Int)
    (handler : Option Handler) :
    List Event → Store → Stats → Option String × Stats × Store
  | [], s, st => (none, st, s)
  | e :: rest, s, st =>
    let st' := { st with total := st.total + 1 }
    let r := process_event processedLs failedLs now e s handler
    match r.raised with
    | some m => (some m, st', r.store)
    | none =>
      if r.success then
        processLoop processedLs failedLs now handler rest r.store
          { st' with processed := st'.processed + 1 }
      else
        processLoop processedLs failedLs now handler rest r.store
          { st' with failed := st'.failed + 1 }

/-- `utils.process_pending_events(limit=None, event_type=None, handler=None)`.
The queryset is evaluated once when the `for` loop starts. -/
def process_pending_events (processedLs failedLs : List Listener) (now : Int)
    (s : Store) (limit : Option Nat) (event_type : Option String)
    (handler : Option Handler) : Option String × Stats × Store :=
  let events := get_pending_events s limit event_type
  processLoop processedLs failedLs now handler events s ⟨0, 0, 0⟩

/-- Evaluation of the lazy queryset of `retry_failed_events` against a store
state: status=failed and `retry_count < max_retries`, ordered by
`created_at`. -/
def retryQuerysetEval (s : Store) (max_retries : Nat) : List Event :=
  sortByCreated (List.filter
    (fun e => e.status = Status.failed ∧ e.retry_count < max_retries) s)

/-- The retry loop: `total` was fixed by `queryset.count()`; per event call
`process_event` (default handler) and bump `processed` or `failed`. -/
def retryLoop (processedLs failedLs : List Listener) (now : Int) :
    List Event → Store → Stats → Option String × Stats × Store
  | [], s, st => (none, st, s)
  | e :: rest, s, st =>
    let r := process_event processedLs failedLs now e s none
    match r.raised with
    | some m => (some m, st, r.store)
    | none =>
      if r.success then
        retryLoop processedLs failedLs now rest r.store
          { st with processed := st.processed + 1 }
      else
        retryLoop processedLs failedLs now rest r.store
          { st with failed := st.failed + 1 }

/-- `utils.retry_failed_events(limit=None, max_retries=3)`.  The queryset is
lazy: slicing happens first (and makes the later `.update()` raise), the bulk
`.update(status=pending)` runs against the current store (bulk update touches
only `status`; `auto_now` does not apply), and then `queryset.count()` and
the `for` loop each re-evaluate the filter against the already-updated
store. -/
def retry_failed_events (processedLs failedLs : List Listener) (now : Int)
    (s : Store) (limit : Option Nat) (max_retries : Nat) :
    Except String (Stats × Store) :=
  let sliced : Bool :=
    match limit with
    | some n => n != 0
    | none => false
  if sliced then
    .error "Cannot update a query once a slice has been taken."
  else
    let s1 : Store := List.map
      (fun e =>
        if e.status = Status.failed ∧ e.retry_count < max_retries then
          { e with status := Status.pending }
        else e) s
    let total := (retryQuerysetEval s1 max_retries).length
    let events := retryQuerysetEval s1 max_retries
    match retryLoop processedLs failedLs now events s1 ⟨total, 0, 0⟩ with
    | (some m, _, _) => .error m
    | (none, st, s2) => .ok (st, s2)

/-- Outcome of `django.utils.dateparse.parse_datetime` on a string:
`.ok (some t)` parsed, `.ok none` returned `None` (not ISO-8601 shaped),
`.error ()` raised `ValueError` (ISO-8601 shaped but invalid). -/
def ParseDatetime := String → Except Unit (Option Int)

/-- Outcome of the epoch branch `datetime.fromtimestamp(float(s), tz=utc)`
on a string: `.ok t` succeeded; `.valueError` models `float(s)` or
`fromtimestamp` raising `ValueError` (or `TypeError`), which the view's
`except (ValueError, TypeError)` catches; `.overflowError` models
`fromtimestamp` raising `OverflowError` on a `float()`-accepted but
out-of-range value such as "1e20" or "inf" — that exception is NOT caught
by the inner clause and escapes to the view's outer handler. -/
inductive EpochResult where
  | ok (t : Int)
  | valueError
  | overflowError
deriving DecidableEq, Repr

def ParseEpoch := String → EpochResult

/-- Outcome of `json.loads(request.body)`: a parsed value, a
`json.JSONDecodeError` (caught by the view, answered 400), or a
`UnicodeDecodeError` from decoding invalid-UTF-8 bytes — which is not a
`JSONDecodeError`, so it escapes to the view's outer handler. -/
inductive BodyParse where
  | ok (data : Json)
  | jsonDecodeError
  | unicodeDecodeError
deriving DecidableEq, Repr

/-- An HTTP response: status code and JSON body. -/
structure HttpResponse where
  status_code : Nat
  body : Json
deriving DecidableEq, Repr

def invalidJsonBody : Json :=
  Json.objCons "error" (Json.str "Invalid JSON payload") Json.objNil

def missingIdBody : Json :=
  Json.objCons "error" (Json.str "Missing event ID") Json.objNil

def internalErrorBody : Json :=
  Json.objCons "error" (Json.str "Internal server error") Json.objNil

def duplicateBody : Json :=
  Json.objCons "status" (Json.str "duplicate")
    (Json.objCons "message" (Json.str "Event already processed") Json.objNil)

def receivedBody (event_id : Json) : Json :=
  Json.objCons "status" (Json.str "received")
    (Json.objCons "event_id" event_id Json.objNil)

/-- Result of one webhook request: the response, the store afterwards, and
whether `webhook_event_received.send` was invoked. -/
structure ViewResult where
  response : HttpResponse
  store : Store
  receivedHookFired : Bool
deriving DecidableEq, Repr

/-- The timestamp-extraction block of `resend_webhook_view`:
`timestamp_str = data.get('created_at') or data.get('timestamp')`, then ISO
parse, then Unix-epoch parse, falling back to the receipt time `now`.
`parse_datetime` on a non-string raises `TypeError`, which the surrounding
`except (ValueError, TypeError)` turns into the receipt time, as it does a
`ValueError` from either parser — but an `OverflowError` from
`fromtimestamp` escapes this block (`.error ()`). -/
def extractTimestamp (pdt : ParseDatetime) (pe : ParseEpoch) (now : Int)
    (data : Json) : Except Unit Int :=
  let tsv := pyOr (data.get "created_at") (data.get "timestamp")
  match tsv with
  | some v =>
    if v.truthy then
      match v with
      | .str s =>
        match pdt s with
        | .error _ => .ok now
        | .ok (some t) => .ok t
        | .ok none =>
          match pe s with
          | .ok t => .ok t
          | .valueError => .ok now
          | .overflowError => .error ()
      | _ => .ok now
    else .ok now
  | none => .ok now

/-- The email extraction of the view:
`data.get('to') or data.get('email') or data.get('recipient')`, taking the
first element when the value is a non-empty list. -/
def extractEmail (event_data : Json) : Option Json :=
  let email := pyOr (event_data.get "to")
    (pyOr (event_data.get "email") (event_data.get "recipient"))
  match email with
  | some (Json.arrCons h _) => some h
  | other => other

/-- The message-id extraction of the view:
`data.get('email_id') or data.get('message_id') or data.get('id')`. -/
def extractMessageId (event_data : Json) : Option Json :=
  pyOr (event_data.get "email_id")
    (pyOr (event_data.get "message_id") (event_data.get "id"))

/-- The row built by `get_or_create`'s `defaults` (plus the `auto_now_add`
and default columns of the model). -/
def newEventRow (event_id event_type : Json) (timestamp : Int)
    (email message_id : Option Json) (payload : Json) (now : Int) : Event :=
  { event_id := event_id
    event_type := event_type
    timestamp := timestamp
    email := email
    message_id := message_id
    payload := payload
    status := Status.pending
    created_at := now
    updated_at := now
    processed_at := none
    error_message := ""
    retry_count := 0 }

/-- `views.resend_webhook_view`.  `body` is the outcome of
`json.loads(request.body)`.  Uncaught exceptions inside the function body
(a `UnicodeDecodeError` from decoding the raw bytes, the `AttributeError`
from calling `.get` on a non-dict, an `OverflowError` escaping the
timestamp block, or an exception out of a `webhook_event_received`
receiver) reach the outer `except Exception` handler, which responds 500;
there is no transaction, so a row created before such an exception stays
stored. -/
def resend_webhook_view (pdt : ParseDatetime) (pe : ParseEpoch)
    (receivedLs : List Listener) (now : Int) (s : Store)
    (body : BodyParse) : ViewResult :=
  match body with
  | .jsonDecodeError => ⟨⟨400, invalidJsonBody⟩, s, false⟩
  | .unicodeDecodeError => ⟨⟨500, internalErrorBody⟩, s, false⟩
  | .ok data =>
    if data.isObj = false then
      ⟨⟨500, internalErrorBody⟩, s, false⟩
    else
      let event_id := data.get "id"
      let event_type := data.getD "type" (Json.str "")
      let event_data := data.getD "data" Json.objNil
      match event_id with
      | none => ⟨⟨400, missingIdBody⟩, s, false⟩
      | some idv =>
        if idv.truthy = false then
          ⟨⟨400, missingIdBody⟩, s, false⟩
        else
          match extractTimestamp pdt pe now data with
          | .error _ => ⟨⟨500, internalErrorBody⟩, s, false⟩
          | .ok timestamp =>
            if event_data.isObj = false then
              ⟨⟨500, internalErrorBody⟩, s, false⟩
            else
              let email := extractEmail event_data
              let message_id := extractMessageId event_data
              match List.find? (fun r => r.event_id = idv) s with
              | some _ =>
                ⟨⟨200, duplicateBody⟩, s, false⟩
              | none =>
                let row := newEventRow idv event_type timestamp email
                  message_id data now
                let s' := s ++ [row]
                match signalSend receivedLs row with
                | .ok () => ⟨⟨200, receivedBody idv⟩, s', true⟩
                | .error _ => ⟨⟨500, internalErrorBody⟩, s', true⟩

/-- Whether the payload's `data` field, when present, is a dict — so that
the fallback extraction `.get` calls do not raise. -/
def dataFieldOk (d : Json) : Bool :=
  match d.get "data" with
  | some j => j.isObj
  | none => true

/-- The row created by the success path of the view for a payload `d` whose
truthy top-level id is `v`, at receipt time `now`, once the timestamp block
produced `ts`. -/
def viewRow (now : Int) (d v : Json) (ts : Int) : Event :=
  newEventRow v (d.getD "type" (Json.str "")) ts
    (extractEmail (d.getD "data" Json.objNil))
    (extractMessageId (d.getD "data" Json.objNil)) d now

/-- Whether the payload's timestamp value is absent, falsy, or rejected by
both parsers with exceptions the view catches (`parse_datetime` returning
`None` or raising `ValueError`; the epoch branch raising `ValueError`).  A
numeric JSON literal counts as a parseable epoch value, and an epoch string
whose conversion overflows is excluded here — that path raises out of the
block instead of falling back.  Strings are judged by the two parsers;
other truthy values can be parsed as neither. -/
def timestampUnparseable (pdt : ParseDatetime) (pe : ParseEpoch) :
    Option Json → Bool
  | none => true
  | some v =>
    if v.truthy then
      match v with
      | .str s =>
        match pdt s with
        | .ok (some _) => false
        | .ok none =>
          match pe s with
          | .valueError => true
          | _ => false
        | .error _ => true
      | .num _ => false
      | _ => true
    else true

/-- The event selection described by the spec for `process_pending_events`:
events with status Pending, filtered by `event_type` when given, ordered by
`created_at` ascending, capped by `limit` when given. -/
def claimPendingSelection (s : Store) (limit : Option Nat)
    (event_type : Option String) : List Event :=
  let sel := List.filter (fun e => e.status = Status.pending) s
  let sel :=
    match event_type with
    | some t => List.filter (fun e => e.event_type = Json.str t) sel
    | none => sel
  let sel := sortByCreated sel
  match limit with
  | some n => sel.take n
  | none => sel

/-! Concrete fixtures used by witnesses and counterexamples. -/

/-- An ISO parser that recognises nothing. -/
def noParseDatetime : ParseDatetime := fun _ => Except.ok none

/-- An epoch parser on which `float(s)` always raises `ValueError`. -/
def noParseEpoch : ParseEpoch := fun _ => EpochResult.valueError

/-- An epoch parser modelling values such as "1e20" or "inf": `float(s)`
succeeds but `fromtimestamp` raises `OverflowError`. -/
def overflowEpoch : ParseEpoch := fun _ => EpochResult.overflowError

/-- A handler that succeeds on every event. -/
def okHandler : Handler := fun _ => Except.ok ()

/-- A handler that raises an exception whose textual description is empty
(Python: `raise ValueError()`, for which `str(e) == ""`). -/
def emptyRaiseHandler : Handler := fun _ => Except.error ""

/-- A handler that raises with message "boom". -/
def boomHandler : Handler := fun _ => Except.error "boom"

/-- A listener that raises with message "boom". -/
def boomListener : Listener := fun _ => Except.error "boom"

/-- A fresh pending event as stored by the receiver. -/
def sampleEvent : Event :=
  newEventRow (Json.str "evt_1") (Json.str "email.sent") 5 none none
    Json.objNil 1

/-- A previously failed event eligible for retry. -/
def sampleFailedEvent : Event :=
  { sampleEvent with status := Status.failed, error_message := "boom",
                     retry_count := 1 }

/-- A failed event with `retry_count` 0, retryable under any positive
`max_retries`. -/
def retryableEvent : Event :=
  { sampleEvent with status := Status.failed, error_message := "boom" }

/-- The same row after the bulk status reset of `retry_failed_events`
(only `status` changes; bulk update bypasses `auto_now`). -/
def retryableEventReset : Event :=
  { retryableEvent with status := Status.pending }

/-- A pending event that failed twice before and was re-queued: it still
carries the failure's `error_message` and `retry_count`. -/
def retriedEvent : Event :=
  { sampleEvent with error_message := "boom", retry_count := 2 }

def eventA : Event := { sampleEvent with event_id := Json.str "a", created_at := 1 }

def eventB : Event := { sampleEvent with event_id := Json.str "b", created_at := 2 }

def eventC : Event := { sampleEvent with event_id := Json.str "c", created_at := 3 }

/-- A handler that raises exactly on `eventB`. -/
def failOnB : Handler :=
  fun e => if e.event_id = Json.str "b" then Except.error "no" else Except.ok ()

/-- Payload with only a top-level id. -/
def payloadId1 : Json := Json.objCons "id" (Json.str "evt_1") Json.objNil

/-- Payload with an id and an unparseable `created_at`. -/
def payloadBadTs : Json :=
  Json.objCons "id" (Json.str "evt_9")
    (Json.objCons "created_at" (Json.str "not-a-date") Json.objNil)

/-- Payload with the same id as `payloadId1` and a `created_at` that
`float()` accepts but `fromtimestamp` overflows on. -/
def payloadOverflowTs : Json :=
  Json.objCons "id" (Json.str "evt_1")
    (Json.objCons "created_at" (Json.str "1e20") Json.objNil)

/-! Helper lemmas. -/

/-- `Signal.send` succeeds when every connected receiver succeeds. -/
theorem signalSend_ok {ls : List Listener}
    (h : ∀ l ∈ ls, ∀ ev, l ev = Except.ok ()) (e : Event) :
    signalSend ls e = Except.ok () := by
  induction ls with
  | nil => rfl
  | cons l rest ih =>
    have hl := h l (List.mem_cons_self l rest) e
    simp only [signalSend, hl]
    exact ih (fun l' hm ev => h l' (List.mem_cons_of_mem _ hm) ev)

/-- `process_event` never lets an exception escape as long as every
`webhook_event_failed` receiver succeeds. -/
theorem process_event_no_raise (pLs fLs : List Listener) (now : Int)
    (e : Event) (s : Store) (handler : Option Handler)
    (hf : ∀ l ∈ fLs, ∀ ev, l ev = Except.ok ()) :
    (process_event pLs fLs now e s handler).raised = none := by
  unfold process_event
  by_cases hst : e.status = Status.pending
  · rw [if_neg (by simp [hst])]
    simp only [mark_processing, mark_processed, mark_failed]
    split
    · simp [signalSend_ok hf]
    · split
      · simp
      · simp [signalSend_ok hf]
  · simp [hst]

/-- Two successive saves to the same row compose, provided the first write
does not change the key column. -/
theorem storeSave_storeSave (s : Store) (eid : Json) (f g : Event → Event)
    (hf : ∀ r, (f r).event_id = r.event_id) :
    storeSave (storeSave s eid f) eid g =
      storeSave s eid (fun r => g (f r)) := by
  induction s with
  | nil => rfl
  | cons r rest ih =>
    simp only [storeSave, List.map_cons] at ih ⊢
    by_cases h : r.event_id = eid
    · rw [if_pos h, if_pos (by rw [hf r]; exact h), if_pos h]
      exact congrArg _ ih
    · rw [if_neg h, if_neg h, if_neg h]
      exact congrArg _ ih

/-- The success path of `process_event` in closed form. -/
theorem process_event_success_eq (pLs fLs : List Listener) (now : Int)
    (e : Event) (s : Store) (handler : Option Handler)
    (hPend : e.status = Status.pending)
    (hp : ∀ l ∈ pLs, ∀ ev, l ev = Except.ok ())
    (hok : ∀ h, handler = some h →
      h { e with status := Status.processing, updated_at := now } =
        Except.ok ()) :
    process_event pLs fLs now e s handler =
      ⟨none, true,
       { e with status := Status.processed, processed_at := some now,
                updated_at := now },
       storeSave (storeSave s e.event_id
         (fun r => { r with status := Status.processing, updated_at := now }))
         e.event_id
         (fun r => { r with status := Status.processed,
                            processed_at := some now, updated_at := now }),
       handler.isSome, true, false⟩ := by
  have hout : (match handler with
      | some h => h { e with status := Status.processing, updated_at := now }
      | none => Except.ok ()) = Except.ok () := by
    cases handler with
    | none => rfl
    | some h => exact hok h rfl
  unfold process_event
  rw [if_neg (by simp [hPend])]
  simp only [mark_processing, mark_processed, hout, signalSend_ok hp]

/-- The handler-failure path of `process_event` in closed form. -/
theorem process_event_failed_eq (pLs fLs : List Listener) (now : Int)
    (e : Event) (s : Store) (h : Handler) (msg : String)
    (hPend : e.status = Status.pending)
    (hf : ∀ l ∈ fLs, ∀ ev, l ev = Except.ok ())
    (hmsg : h { e with status := Status.processing, updated_at := now } =
      Except.error msg) :
    process_event pLs fLs now e s (some h) =
      ⟨none, false,
       { e with status := Status.failed, error_message := msg,
                retry_count := e.retry_count + 1, updated_at := now },
       storeSave (storeSave s e.event_id
         (fun r => { r with status := Status.processing, updated_at := now }))
         e.event_id
         (fun r => { r with status := Status.failed, error_message := msg,
                            retry_count := e.retry_count + 1,
                            updated_at := now }),
       true, false, true⟩ := by
  unfold process_event
  rw [if_neg (by simp [hPend])]
  simp only [mark_processing, mark_failed, hmsg, signalSend_ok hf]
  rfl

/-- C7: for every event whose status is not Pending, `process_event` is a
no-op returning failure: it changes no field of the event or the store,
fires no hook, and never invokes the handler. -/
theorem c7_non_pending_noop (pLs fLs : List Listener) (now : Int)
    (e : Event) (s : Store) (handler : Option Handler)
    (hst : e.status ≠ Status.pending) :
    process_event pLs fLs now e s handler =
      ⟨none, false, e, s, false, false, false⟩ := by
  unfold process_event
  rw [if_pos hst]

theorem c7_non_pending_noop_witness :
    (sampleFailedEvent.status ≠ Status.pending) ∧
    process_event [] [] 9 sampleFailedEvent [sampleFailedEvent] (some okHandler) =
      ⟨none, false, sampleFailedEvent, [sampleFailedEvent], false, false, false⟩ :=
  ⟨by decide, c7_non_pending_noop [] [] 9 sampleFailedEvent [sampleFailedEvent]
    (some okHandler) (by decide)⟩

/-- C5 counterexample: a handler can raise an exception whose description is
empty (Python `str(e) == ""`); `process_event` then moves the event to
Failed with an empty `error_message`, contradicting the claim's "non-empty
error_message" for every raising handler. -/
theorem c5_empty_error_message_counterexample :
    (process_event [] [] 7 sampleEvent [sampleEvent]
        (some emptyRaiseHandler)).event.status = Status.failed ∧
    (process_event [] [] 7 sampleEvent [sampleEvent]
        (some emptyRaiseHandler)).event.error_message = "" := by
  constructor <;> rfl

/-- C5 (amended): for every Pending event, a handler that raises moves the
event to Failed with `retry_count` incremented by exactly 1 and
`error_message` equal to the error's description (hence non-empty whenever
that description is non-empty), returning failure without re-raising; a
no-op or absent handler moves it to Processed with `processed_at` set and
returns success. -/
theorem c5_status_machine (pLs fLs : List Listener) (now : Int)
    (e : Event) (s : Store) (hPend : e.status = Status.pending)
    (hp : ∀ l ∈ pLs, ∀ ev, l ev = Except.ok ())
    (hf : ∀ l ∈ fLs, ∀ ev, l ev = Except.ok ()) :
    (∀ (h : Handler) (msg : String),
      h { e with status := Status.processing, updated_at := now } =
        Except.error msg →
      (process_event pLs fLs now e s (some h)).raised = none ∧
      (process_event pLs fLs now e s (some h)).success = false ∧
      (process_event pLs fLs now e s (some h)).event.status = Status.failed ∧
      (process_event pLs fLs now e s (some h)).event.retry_count =
        e.retry_count + 1 ∧
      (process_event pLs fLs now e s (some h)).event.error_message = msg ∧
      (msg ≠ "" →
        (process_event pLs fLs now e s (some h)).event.error_message ≠ "")) ∧
    (∀ handler : Option Handler,
      (∀ h, handler = some h →
        h { e with status := Status.processing, updated_at := now } =
          Except.ok ()) →
      (process_event pLs fLs now e s handler).raised = none ∧
      (process_event pLs fLs now e s handler).success = true ∧
      (process_event pLs fLs now e s handler).event.status =
        Status.processed ∧
      (process_event pLs fLs now e s handler).event.processed_at =
        some now) := by
  constructor
  · intro h msg hmsg
    rw [process_event_failed_eq pLs fLs now e s h msg hPend hf hmsg]
    exact ⟨rfl, rfl, rfl, rfl, rfl, fun hne => hne⟩
  · intro handler hok
    rw [process_event_success_eq pLs fLs now e s handler hPend hp hok]
    exact ⟨rfl, rfl, rfl, rfl⟩

theorem c5_status_machine_witness :
    (sampleEvent.status = Status.pending) ∧
    ((process_event [] [] 7 sampleEvent [sampleEvent]
        (some boomHandler)).event.status = Status.failed ∧
     (process_event [] [] 7 sampleEvent [sampleEvent]
        (some boomHandler)).event.retry_count = 1 ∧
     (process_event [] [] 7 sampleEvent [sampleEvent]
        (some boomHandler)).event.error_message = "boom") ∧
    ((process_event [] [] 7 sampleEvent [sampleEvent] none).success = true ∧
     (process_event [] [] 7 sampleEvent [sampleEvent]
        none).event.status = Status.processed ∧
     (process_event [] [] 7 sampleEvent [sampleEvent]
        none).event.processed_at = some 7) := by
  have main := c5_status_machine [] [] 7 sampleEvent [sampleEvent]
    (by decide) (by simp) (by simp)
  have hfail := main.1 boomHandler "boom" rfl
  have hok := main.2 none (by intro h hcontra; cases hcontra)
  exact ⟨by decide, ⟨hfail.2.2.1, hfail.2.2.2.1, hfail.2.2.2.2.1⟩,
    hok.2.1, hok.2.2.1, hok.2.2.2⟩

/-- C3: the claim-exclusivity property fails on the code.  Two engine
invocations that both fetched the same Pending event before either wrote
(the second call still holds the stale pending snapshot, exactly what the
in-memory guard `event.status != STATUS_PENDING` checks) both pass the
guard, both invoke the handler and both report success, because
`mark_processing` saves unconditionally instead of performing a conditional
update checked by affected-row count. -/
theorem c3_stale_snapshot_double_processing :
    (process_event [] [] 7 sampleEvent [sampleEvent]
        (some okHandler)).handlerRan = true ∧
    (process_event [] [] 7 sampleEvent [sampleEvent]
        (some okHandler)).success = true ∧
    (process_event [] [] 8 sampleEvent
        (process_event [] [] 7 sampleEvent [sampleEvent]
          (some okHandler)).store (some okHandler)).handlerRan = true ∧
    (process_event [] [] 8 sampleEvent
        (process_event [] [] 7 sampleEvent [sampleEvent]
          (some okHandler)).store (some okHandler)).success = true := by
  decide

/-- C4: listener failures are not isolated.  A raising
`webhook_event_received` receiver is caught only by the view's outer
handler, turning the HTTP outcome into a 500 (the row stays stored); a
raising `webhook_event_processed` receiver is caught by `process_event`'s
`except` block, which overwrites the already-recorded Processed outcome
with Failed, sets `error_message` and bumps `retry_count`; a raising
`webhook_event_failed` receiver propagates out of `process_event`. -/
theorem c4_listener_failure_not_isolated :
    ((resend_webhook_view noParseDatetime noParseEpoch [boomListener] 3 []
        (BodyParse.ok payloadId1)).response.status_code = 500 ∧
     (resend_webhook_view noParseDatetime noParseEpoch [boomListener] 3 []
        (BodyParse.ok payloadId1)).store.length = 1) ∧
    ((process_event [boomListener] [] 7 sampleEvent [sampleEvent]
        none).event.status = Status.failed ∧
     (process_event [boomListener] [] 7 sampleEvent [sampleEvent]
        none).event.error_message = "boom" ∧
     (process_event [boomListener] [] 7 sampleEvent [sampleEvent]
        none).event.retry_count = 1 ∧
     (process_event [boomListener] [] 7 sampleEvent [sampleEvent]
        none).processedHookFired = true) ∧
    (process_event [] [boomListener] 7 sampleEvent [sampleEvent]
        (some boomHandler)).raised = some "boom" := by
  decide

/-- C2: `retry_failed_events` is broken by queryset laziness.  On a store
holding one retryable event (status Failed, `retry_count` 0 < 3) the
filter initially selects that event, the bulk update resets it to Pending —
but `queryset.count()` and the processing loop then re-evaluate the filter
against the updated store, match nothing, and the function returns
`{total: 0, processed: 0, failed: 0}` without ever calling `process_event`,
leaving the event Pending and unprocessed; with a limit it raises instead
of retrying. -/
theorem c2_retry_lazy_queryset_noop :
    retryQuerysetEval [retryableEvent] 3 = [retryableEvent] ∧
    retry_failed_events [] [] 10 [retryableEvent] none 3 =
      Except.ok (⟨0, 0, 0⟩, [retryableEventReset]) ∧
    retry_failed_events [] [] 10 [retryableEvent] (some 5) 3 =
      Except.error "Cannot update a query once a slice has been taken." := by
  exact ⟨by decide, by rfl, by rfl⟩

/-- C10: the success transition of `process_event` (`mark_processed`)
updates only `status`, `processed_at` and `updated_at` on the in-memory
object and on the stored row, leaving `error_message` and `retry_count` (and
every other field) unchanged — so an event that previously failed and is
then retried successfully ends up Processed while still carrying the
`error_message` and `retry_count` of its last failure. -/
theorem c10_mark_processed_frame (pLs fLs : List Listener) (now : Int)
    (e : Event) (s : Store) (handler : Option Handler)
    (hPend : e.status = Status.pending)
    (hp : ∀ l ∈ pLs, ∀ ev, l ev = Except.ok ())
    (hok : ∀ h, handler = some h →
      h { e with status := Status.processing, updated_at := now } =
        Except.ok ()) :
    (process_event pLs fLs now e s handler).event =
      { e with status := Status.processed, processed_at := some now,
               updated_at := now } ∧
    (process_event pLs fLs now e s handler).store =
      List.map (fun r =>
        if r.event_id = e.event_id then
          { r with status := Status.processed, processed_at := some now,
                   updated_at := now }
        else r) s ∧
    (process_event pLs fLs now e s handler).event.error_message =
      e.error_message ∧
    (process_event pLs fLs now e s handler).event.retry_count =
      e.retry_count := by
  rw [process_event_success_eq pLs fLs now e s handler hPend hp hok]
  refine ⟨rfl, ?_, rfl, rfl⟩
  show storeSave (storeSave s e.event_id
      (fun r => { r with status := Status.processing, updated_at := now }))
      e.event_id
      (fun r => { r with status := Status.processed,
                         processed_at := some now, updated_at := now }) = _
  rw [storeSave_storeSave s e.event_id
    (fun r => { r with status := Status.processing, updated_at := now })
    (fun r => { r with status := Status.processed,
                       processed_at := some now, updated_at := now })
    (fun r => rfl)]
  rfl

theorem c10_mark_processed_frame_witness :
    (retriedEvent.status = Status.pending ∧
     retriedEvent.error_message = "boom" ∧ retriedEvent.retry_count = 2) ∧
    ((process_event [] [] 11 retriedEvent [retriedEvent] none).event.status =
       Status.processed ∧
     (process_event [] [] 11 retriedEvent [retriedEvent] none).event.error_message =
       "boom" ∧
     (process_event [] [] 11 retriedEvent [retriedEvent] none).event.retry_count =
       2) := by
  have main := c10_mark_processed_frame [] [] 11 retriedEvent [retriedEvent]
    none (by decide) (by simp) (by intro h hcontra; cases hcontra)
  refine ⟨by decide, ?_, ?_, ?_⟩
  · rw [main.1]
  · rw [main.2.2.1]; rfl
  · rw [main.2.2.2]; rfl

/-- Bookkeeping of the batch loop: when every `webhook_event_failed`
receiver succeeds, no exception escapes, `total` grows by the length of the
batch, and `processed + failed` grows by exactly the same amount — so one
event's failure never aborts the iteration. -/
theorem processLoop_stats (pLs fLs : List Listener) (now : Int)
    (handler : Option Handler)
    (hf : ∀ l ∈ fLs, ∀ ev, l ev = Except.ok ()) :
    ∀ (events : List Event) (s : Store) (st : Stats),
      (processLoop pLs fLs now handler events s st).1 = none ∧
      (processLoop pLs fLs now handler events s st).2.1.total =
        st.total + events.length ∧
      (processLoop pLs fLs now handler events s st).2.1.processed +
        (processLoop pLs fLs now handler events s st).2.1.failed =
        st.processed + st.failed + events.length := by
  intro events
  induction events with
  | nil =>
    intro s st
    exact ⟨rfl, by simp [processLoop], by simp [processLoop]⟩
  | cons e rest ih =>
    intro s st
    have hnr := process_event_no_raise pLs fLs now e s handler hf
    simp only [processLoop, hnr, List.length_cons]
    by_cases hs : (process_event pLs fLs now e s handler).success = true
    · rw [if_pos hs]
      obtain ⟨h1, h2, h3⟩ := ih (process_event pLs fLs now e s handler).store
        { st with total := st.total + 1, processed := st.processed + 1 }
      exact ⟨h1, by rw [h2]; dsimp only; omega,
        by rw [h3]; dsimp only; omega⟩
    · rw [if_neg hs]
      obtain ⟨h1, h2, h3⟩ := ih (process_event pLs fLs now e s handler).store
        { st with total := st.total + 1, failed := st.failed + 1 }
      exact ⟨h1, by rw [h2]; dsimp only; omega,
        by rw [h3]; dsimp only; omega⟩

/-- For a positive limit and a non-empty event-type filter (the degenerate
falsy values 0 and "" disable slicing and filtering in the code), the
queryset built by `get_pending_events` is exactly the selection the spec
describes. -/
theorem get_pending_events_eq_claim (s : Store) (limit : Option Nat)
    (event_type : Option String)
    (hL : ∀ n, limit = some n → n ≠ 0)
    (hT : ∀ t, event_type = some t → t ≠ "") :
    get_pending_events s limit event_type =
      claimPendingSelection s limit event_type := by
  cases event_type with
  | none =>
    cases limit with
    | none => rfl
    | some n =>
      simp only [get_pending_events, claimPendingSelection]
      rw [if_pos (hL n rfl)]
  | some t =>
    cases limit with
    | none =>
      simp only [get_pending_events, claimPendingSelection]
      rw [if_pos (hT t rfl)]
    | some n =>
      simp only [get_pending_events, claimPendingSelection]
      rw [if_pos (hT t rfl), if_pos (hL n rfl)]

/-- C6: `process_pending_events` iterates `process_event` over exactly the
events with status Pending (filtered by `event_type` when given, in
`created_at` ascending order, capped by `limit` when given); no single
event's failure aborts the batch, `total` equals the number of events
fetched, and `processed + failed = total`. -/
theorem c6_batch_stats (pLs fLs : List Listener) (now : Int) (s : Store)
    (limit : Option Nat) (event_type : Option String)
    (handler : Option Handler)
    (hL : ∀ n, limit = some n → n ≠ 0)
    (hT : ∀ t, event_type = some t → t ≠ "")
    (hf : ∀ l ∈ fLs, ∀ ev, l ev = Except.ok ()) :
    get_pending_events s limit event_type =
      claimPendingSelection s limit event_type ∧
    (process_pending_events pLs fLs now s limit event_type handler).1 =
      none ∧
    (process_pending_events pLs fLs now s limit event_type handler).2.1.total =
      (claimPendingSelection s limit event_type).length ∧
    (process_pending_events pLs fLs now s limit event_type
        handler).2.1.processed +
      (process_pending_events pLs fLs now s limit event_type
        handler).2.1.failed =
      (process_pending_events pLs fLs now s limit event_type
        handler).2.1.total := by
  have hsel := get_pending_events_eq_claim s limit event_type hL hT
  obtain ⟨h1, h2, h3⟩ := processLoop_stats pLs fLs now handler hf
    (get_pending_events s limit event_type) s ⟨0, 0, 0⟩
  have h1' : (process_pending_events pLs fLs now s limit event_type
      handler).1 = none := h1
  have h2' : (process_pending_events pLs fLs now s limit event_type
      handler).2.1.total =
      0 + (get_pending_events s limit event_type).length := h2
  have h3' : (process_pending_events pLs fLs now s limit event_type
        handler).2.1.processed +
      (process_pending_events pLs fLs now s limit event_type
        handler).2.1.failed =
      0 + 0 + (get_pending_events s limit event_type).length := h3
  refine ⟨hsel, h1', ?_, ?_⟩
  · rw [h2', hsel]
    simp
  · rw [h3', h2']

theorem c6_batch_stats_witness :
    (∀ n : Nat, (none : Option Nat) = some n → n ≠ 0) ∧
    (∀ t : String, (none : Option String) = some t → t ≠ "") ∧
    (process_pending_events [] [] 9 [eventA, eventB, eventC] none none
        (some failOnB)).1 = none ∧
    (process_pending_events [] [] 9 [eventA, eventB, eventC] none none
        (some failOnB)).2.1.total =
      (claimPendingSelection [eventA, eventB, eventC] none none).length ∧
    (process_pending_events [] [] 9 [eventA, eventB, eventC] none none
        (some failOnB)).2.1 = ⟨3, 2, 1⟩ := by
  have main := c6_batch_stats [] [] 9 [eventA, eventB, eventC] none none
    (some failOnB) (fun n h => by cases h) (fun t h => by cases h) (by simp)
  refine ⟨?_, ?_, main.2.1, main.2.2.1, ?_⟩
  · intro n h
    cases h
  · intro t h
    cases h
  · decide

/-- When the `data` field is absent or a dict, the extracted
`event_data` is a dict. -/
theorem dataFieldOk_isObj {d : Json} (h : dataFieldOk d = true) :
    (d.getD "data" Json.objNil).isObj = true := by
  unfold dataFieldOk at h
  unfold Json.getD
  cases hg : d.get "data" with
  | none => rfl
  | some j => rw [hg] at h; exact h

/-- Appending a matching row to a store with no match makes `find?` return
exactly that row. -/
theorem find?_append_singleton (s : Store) (v : Json) (row : Event)
    (hs : ∀ r ∈ s, r.event_id ≠ v) (hrow : row.event_id = v) :
    List.find? (fun r => r.event_id = v) (s ++ [row]) = some row := by
  induction s with
  | nil =>
    simp only [List.nil_append]
    exact List.find?_cons_of_pos _ (by simp [hrow])
  | cons a as ih =>
    rw [List.cons_append,
      List.find?_cons_of_neg _ (by simp [hs a (List.mem_cons_self a as)])]
    exact ih (fun r hm => hs r (List.mem_cons_of_mem _ hm))

/-- The fresh-id path of the view: a parsed object payload with a truthy,
not-yet-stored id, a timestamp block that does not raise, and a well-formed
`data` field reaches `get_or_create`, appends exactly one new row, and
fires the received hook; the response is 200 "received" unless a receiver
raises, in which case it is the 500. -/
theorem view_fresh_path (pdt : ParseDatetime) (pe : ParseEpoch)
    (ls : List Listener) (now : Int) (s : Store) (d v : Json) (ts : Int)
    (hobj : d.isObj = true) (hid : d.get "id" = some v)
    (hv : v.truthy = true)
    (hts : extractTimestamp pdt pe now d = Except.ok ts)
    (hdf : dataFieldOk d = true)
    (hfind : List.find? (fun r => r.event_id = v) s = none) :
    resend_webhook_view pdt pe ls now s (BodyParse.ok d) =
      (match signalSend ls (viewRow now d v ts) with
       | Except.ok () =>
         ⟨⟨200, receivedBody v⟩, s ++ [viewRow now d v ts], true⟩
       | Except.error _ =>
         ⟨⟨500, internalErrorBody⟩, s ++ [viewRow now d v ts], true⟩) := by
  unfold resend_webhook_view viewRow
  simp only [hobj, hid, hv, hts, dataFieldOk_isObj hdf, hfind]
  rfl

/-- The duplicate path of the view: a parsed object payload with a truthy
id already stored (whose timestamp block does not raise) returns the 200
duplicate response, changes nothing, and does not fire the received
hook. -/
theorem view_duplicate_path (pdt : ParseDatetime) (pe : ParseEpoch)
    (ls : List Listener) (now : Int) (s : Store) (d v : Json) (ts : Int)
    (r0 : Event)
    (hobj : d.isObj = true) (hid : d.get "id" = some v)
    (hv : v.truthy = true)
    (hts : extractTimestamp pdt pe now d = Except.ok ts)
    (hdf : dataFieldOk d = true)
    (hfind : List.find? (fun r => r.event_id = v) s = some r0) :
    resend_webhook_view pdt pe ls now s (BodyParse.ok d) =
      ⟨⟨200, duplicateBody⟩, s, false⟩ := by
  unfold resend_webhook_view
  simp only [hobj, hid, hv, hts, dataFieldOk_isObj hdf, hfind]
  rfl

/-- The timestamp-abort path of the view: when the epoch conversion raises
`OverflowError`, the exception reaches the outer handler before
`get_or_create`: the response is 500, nothing is stored, no hook fires. -/
theorem view_timestamp_abort (pdt : ParseDatetime) (pe : ParseEpoch)
    (ls : List Listener) (now : Int) (s : Store) (d v : Json)
    (hobj : d.isObj = true) (hid : d.get "id" = some v)
    (hv : v.truthy = true)
    (hts : extractTimestamp pdt pe now d = Except.error ()) :
    resend_webhook_view pdt pe ls now s (BodyParse.ok d) =
      ⟨⟨500, internalErrorBody⟩, s, false⟩ := by
  unfold resend_webhook_view
  simp only [hobj, hid, hv, hts]
  rfl

/-- When the payload's timestamp value is absent, falsy, or rejected by
both parsers with caught exceptions, the timestamp block does not raise
and produces the receipt time. -/
theorem extractTimestamp_unparseable (pdt : ParseDatetime) (pe : ParseEpoch)
    (now : Int) (d : Json)
    (h : timestampUnparseable pdt pe
      (pyOr (d.get "created_at") (d.get "timestamp")) = true) :
    extractTimestamp pdt pe now d = Except.ok now := by
  unfold extractTimestamp
  cases hts : pyOr (d.get "created_at") (d.get "timestamp") with
  | none => rfl
  | some val =>
    rw [hts] at h
    unfold timestampUnparseable at h
    dsimp only at h ⊢
    by_cases htr : val.truthy = true
    · rw [if_pos htr] at h
      rw [if_pos htr]
      cases val with
      | str str0 =>
        dsimp only at h ⊢
        cases hp : pdt str0 with
        | error u => rfl
        | ok o =>
          rw [hp] at h
          cases o with
          | some t =>
            dsimp only at h
            cases h
          | none =>
            dsimp only at h ⊢
            cases hq : pe str0 with
            | valueError => rfl
            | ok t =>
              rw [hq] at h
              simp at h
            | overflowError =>
              rw [hq] at h
              simp at h
      | num n =>
        dsimp only at h
        cases h
      | null => rfl
      | bool b => rfl
      | arrNil => rfl
      | arrCons x y => rfl
      | objNil => rfl
      | objCons k x r => rfl
    · rw [if_neg htr]

/-- C1 counterexample: a second POST carrying the same top-level id but a
`created_at` of "1e20" (accepted by `float()`, overflowing
`fromtimestamp`) is answered 500 by the outer handler — not the claimed
200 duplicate — even though the first request created the row; the store
stays unchanged and no hook fires on the second request. -/
theorem c1_overflow_second_request_counterexample :
    (resend_webhook_view noParseDatetime overflowEpoch [] 3 []
        (BodyParse.ok payloadId1)).store.length = 1 ∧
    payloadOverflowTs.get "id" = payloadId1.get "id" ∧
    resend_webhook_view noParseDatetime overflowEpoch [] 4
        (resend_webhook_view noParseDatetime overflowEpoch [] 3 []
          (BodyParse.ok payloadId1)).store (BodyParse.ok payloadOverflowTs) =
      ⟨⟨500, internalErrorBody⟩,
       (resend_webhook_view noParseDatetime overflowEpoch [] 3 []
         (BodyParse.ok payloadId1)).store, false⟩ ∧
    ((resend_webhook_view noParseDatetime overflowEpoch [] 4
        (resend_webhook_view noParseDatetime overflowEpoch [] 3 []
          (BodyParse.ok payloadId1)).store
        (BodyParse.ok payloadOverflowTs)).response.status_code = 200 →
      False) := by
  decide

/-- C1 (amended): for a pair of webhook POSTs carrying the same truthy
top-level id not yet stored (well-formed enough to reach the idempotency
check, and whose timestamp blocks do not raise), the first request appends
exactly one row and fires the received hook; the second request stores no
new row, modifies no field of any row (the store is unchanged), receives
the 200 duplicate response, and does not fire the received hook — so the
hook fires exactly once, for the creating request. -/
theorem c1_idempotent_receipt (pdt : ParseDatetime) (pe : ParseEpoch)
    (ls : List Listener) (now1 now2 : Int) (s0 : Store) (d1 d2 v : Json)
    (ts1 ts2 : Int)
    (hobj1 : d1.isObj = true) (hid1 : d1.get "id" = some v)
    (hobj2 : d2.isObj = true) (hid2 : d2.get "id" = some v)
    (hv : v.truthy = true)
    (hts1 : extractTimestamp pdt pe now1 d1 = Except.ok ts1)
    (hts2 : extractTimestamp pdt pe now2 d2 = Except.ok ts2)
    (hdf1 : dataFieldOk d1 = true) (hdf2 : dataFieldOk d2 = true)
    (habs : ∀ r ∈ s0, r.event_id ≠ v) :
    (resend_webhook_view pdt pe ls now1 s0
        (BodyParse.ok d1)).receivedHookFired = true ∧
    (resend_webhook_view pdt pe ls now1 s0 (BodyParse.ok d1)).store =
      s0 ++ [viewRow now1 d1 v ts1] ∧
    resend_webhook_view pdt pe ls now2
        (resend_webhook_view pdt pe ls now1 s0 (BodyParse.ok d1)).store
        (BodyParse.ok d2) =
      ⟨⟨200, duplicateBody⟩, s0 ++ [viewRow now1 d1 v ts1], false⟩ := by
  have hfind0 : List.find? (fun r => r.event_id = v) s0 = none :=
    List.find?_eq_none.mpr (fun x hx => by simp [habs x hx])
  have h1 := view_fresh_path pdt pe ls now1 s0 d1 v ts1 hobj1 hid1 hv hts1
    hdf1 hfind0
  have hstore1 : (resend_webhook_view pdt pe ls now1 s0
      (BodyParse.ok d1)).store = s0 ++ [viewRow now1 d1 v ts1] := by
    rw [h1]
    cases signalSend ls (viewRow now1 d1 v ts1) with
    | ok u => cases u; rfl
    | error m => rfl
  have hfired1 : (resend_webhook_view pdt pe ls now1 s0
      (BodyParse.ok d1)).receivedHookFired = true := by
    rw [h1]
    cases signalSend ls (viewRow now1 d1 v ts1) with
    | ok u => cases u; rfl
    | error m => rfl
  have hfind1 : List.find? (fun r => r.event_id = v)
      (s0 ++ [viewRow now1 d1 v ts1]) = some (viewRow now1 d1 v ts1) :=
    find?_append_singleton s0 v (viewRow now1 d1 v ts1) habs rfl
  refine ⟨hfired1, hstore1, ?_⟩
  rw [hstore1]
  exact view_duplicate_path pdt pe ls now2 (s0 ++ [viewRow now1 d1 v ts1])
    d2 v ts2 (viewRow now1 d1 v ts1) hobj2 hid2 hv hts2 hdf2 hfind1

theorem c1_idempotent_receipt_witness :
    (payloadId1.isObj = true ∧ payloadId1.get "id" = some (Json.str "evt_1") ∧
     (Json.str "evt_1").truthy = true ∧ dataFieldOk payloadId1 = true ∧
     extractTimestamp noParseDatetime noParseEpoch 3 payloadId1 =
       Except.ok 3 ∧
     extractTimestamp noParseDatetime noParseEpoch 4 payloadId1 =
       Except.ok 4) ∧
    (resend_webhook_view noParseDatetime noParseEpoch [] 3 []
        (BodyParse.ok payloadId1)).receivedHookFired = true ∧
    (resend_webhook_view noParseDatetime noParseEpoch [] 3 []
        (BodyParse.ok payloadId1)).store =
      [] ++ [viewRow 3 payloadId1 (Json.str "evt_1") 3] ∧
    resend_webhook_view noParseDatetime noParseEpoch [] 4
        (resend_webhook_view noParseDatetime noParseEpoch [] 3 []
          (BodyParse.ok payloadId1)).store (BodyParse.ok payloadId1) =
      ⟨⟨200, duplicateBody⟩,
       [] ++ [viewRow 3 payloadId1 (Json.str "evt_1") 3], false⟩ := by
  have main := c1_idempotent_receipt noParseDatetime noParseEpoch [] 3 4 []
    payloadId1 payloadId1 (Json.str "evt_1") 3 4 (by decide) (by decide)
    (by decide) (by decide) (by decide) (by rfl) (by rfl) (by decide)
    (by decide) (fun r hr => absurd hr (List.not_mem_nil r))
  exact ⟨⟨by decide, by decide, by decide, by decide, by rfl, by rfl⟩,
    main.1, main.2.1, main.2.2⟩

/-- C8 counterexample: a valid-JSON body that is not an object — here the
empty array — lacks a top-level id, yet the receiver answers 500 (the
`AttributeError` from `data.get` lands in the outer handler), not the
claimed 400 "Missing event ID"; no row is persisted. -/
theorem c8_nonobject_body_counterexample :
    (resend_webhook_view noParseDatetime noParseEpoch [] 3 []
        (BodyParse.ok Json.arrNil)).response.status_code = 500 ∧
    ((resend_webhook_view noParseDatetime noParseEpoch [] 3 []
        (BodyParse.ok Json.arrNil)).response.status_code = 400 → False) ∧
    (resend_webhook_view noParseDatetime noParseEpoch [] 3 []
        (BodyParse.ok Json.arrNil)).store = [] := by
  decide

/-- C8 (amended): a POST whose bytes decode but do not parse as JSON
(`json.JSONDecodeError`) gets 400 `Invalid JSON payload`; a POST whose
bytes are not valid UTF-8 raises `UnicodeDecodeError` past the inner
except and gets 500 `Internal server error`; a valid-JSON object body
lacking a top-level `id` key gets 400 `Missing event ID`; a valid-JSON
non-object body gets 500 `Internal server error`; in all cases no event
row is persisted and no hook fires. -/
theorem c8_malformed_input (pdt : ParseDatetime) (pe : ParseEpoch)
    (ls : List Listener) (now : Int) (s : Store) :
    (resend_webhook_view pdt pe ls now s BodyParse.jsonDecodeError =
      ⟨⟨400, invalidJsonBody⟩, s, false⟩) ∧
    (resend_webhook_view pdt pe ls now s BodyParse.unicodeDecodeError =
      ⟨⟨500, internalErrorBody⟩, s, false⟩) ∧
    (∀ d : Json, d.isObj = true → d.get "id" = none →
      resend_webhook_view pdt pe ls now s (BodyParse.ok d) =
        ⟨⟨400, missingIdBody⟩, s, false⟩) ∧
    (∀ d : Json, d.isObj = false →
      resend_webhook_view pdt pe ls now s (BodyParse.ok d) =
        ⟨⟨500, internalErrorBody⟩, s, false⟩) := by
  refine ⟨rfl, rfl, ?_, ?_⟩
  · intro d hobj hid
    unfold resend_webhook_view
    simp only [hobj, hid]
    rfl
  · intro d hobj
    unfold resend_webhook_view
    dsimp only
    rw [hobj]
    rfl

theorem c8_malformed_input_witness :
    resend_webhook_view noParseDatetime noParseEpoch [] 3 []
        BodyParse.jsonDecodeError = ⟨⟨400, invalidJsonBody⟩, [], false⟩ ∧
    resend_webhook_view noParseDatetime noParseEpoch [] 3 []
        BodyParse.unicodeDecodeError =
      ⟨⟨500, internalErrorBody⟩, [], false⟩ ∧
    ((Json.objCons "type" (Json.str "email.sent") Json.objNil).isObj =
      true ∧
     (Json.objCons "type" (Json.str "email.sent") Json.objNil).get "id" =
      none) ∧
    resend_webhook_view noParseDatetime noParseEpoch [] 3 []
        (BodyParse.ok (Json.objCons "type" (Json.str "email.sent")
          Json.objNil)) = ⟨⟨400, missingIdBody⟩, [], false⟩ := by
  have main := c8_malformed_input noParseDatetime noParseEpoch [] 3 []
  exact ⟨main.1, main.2.1, ⟨by decide, by decide⟩,
    main.2.2.1 (Json.objCons "type" (Json.str "email.sent") Json.objNil)
      (by decide) (by decide)⟩

/-- C9 counterexample: a fresh POST whose `created_at` is "1e20" — not an
ISO-8601 datetime, and not representable as an epoch (`float()` accepts it
but `fromtimestamp` raises `OverflowError`, uncaught by
`except (ValueError, TypeError)`) — IS rejected because of the bad
timestamp: the receiver answers 500 and stores nothing, refuting "never
rejects the request for a bad timestamp". -/
theorem c9_overflow_rejection_counterexample :
    resend_webhook_view noParseDatetime overflowEpoch [] 3 []
        (BodyParse.ok payloadOverflowTs) =
      ⟨⟨500, internalErrorBody⟩, [], false⟩ ∧
    ((resend_webhook_view noParseDatetime overflowEpoch [] 3 []
        (BodyParse.ok payloadOverflowTs)).response.status_code = 200 →
      False) ∧
    (resend_webhook_view noParseDatetime overflowEpoch [] 3 []
        (BodyParse.ok payloadOverflowTs)).store = [] := by
  decide

/-- C9 (amended): when the payload's `created_at`/`timestamp` value is
absent, falsy, or rejected by both parsers with caught exceptions
(`parse_datetime` returning None or raising ValueError; float()/epoch
conversion raising ValueError), the receiver does not reject the request:
the event is stored with its `timestamp` equal to the receipt time and the
response is the 200 "received" success (given the request is otherwise
well-formed: fresh truthy id, dict `data` field, receivers that do not
raise).  But when the epoch conversion raises `OverflowError` (e.g.
"1e20", "inf"), the exception escapes the inner except: the receiver
answers 500 and stores nothing. -/
theorem c9_timestamp_fallback (pdt : ParseDatetime) (pe : ParseEpoch)
    (ls : List Listener) (now : Int) (s : Store) (d v : Json)
    (hobj : d.isObj = true) (hid : d.get "id" = some v)
    (hv : v.truthy = true) (hdf : dataFieldOk d = true)
    (habs : ∀ r ∈ s, r.event_id ≠ v)
    (hls : ∀ l ∈ ls, ∀ ev, l ev = Except.ok ()) :
    (timestampUnparseable pdt pe
        (pyOr (d.get "created_at") (d.get "timestamp")) = true →
      resend_webhook_view pdt pe ls now s (BodyParse.ok d) =
        ⟨⟨200, receivedBody v⟩, s ++ [viewRow now d v now], true⟩ ∧
      (viewRow now d v now).timestamp = now) ∧
    (extractTimestamp pdt pe now d = Except.error () →
      resend_webhook_view pdt pe ls now s (BodyParse.ok d) =
        ⟨⟨500, internalErrorBody⟩, s, false⟩) := by
  have hfind : List.find? (fun r => r.event_id = v) s = none :=
    List.find?_eq_none.mpr (fun x hx => by simp [habs x hx])
  constructor
  · intro hts
    have hok := extractTimestamp_unparseable pdt pe now d hts
    have h1 := view_fresh_path pdt pe ls now s d v now hobj hid hv hok
      hdf hfind
    exact ⟨by rw [h1, signalSend_ok hls], rfl⟩
  · intro hraise
    exact view_timestamp_abort pdt pe ls now s d v hobj hid hv hraise

theorem c9_timestamp_fallback_witness :
    (payloadBadTs.isObj = true ∧
     payloadBadTs.get "id" = some (Json.str "evt_9") ∧
     (Json.str "evt_9").truthy = true ∧ dataFieldOk payloadBadTs = true ∧
     timestampUnparseable noParseDatetime noParseEpoch
       (pyOr (payloadBadTs.get "created_at")
         (payloadBadTs.get "timestamp")) = true) ∧
    (resend_webhook_view noParseDatetime noParseEpoch [] 3 []
        (BodyParse.ok payloadBadTs) =
      ⟨⟨200, receivedBody (Json.str "evt_9")⟩,
       [] ++ [viewRow 3 payloadBadTs (Json.str "evt_9") 3], true⟩ ∧
     (viewRow 3 payloadBadTs (Json.str "evt_9") 3).timestamp = 3) ∧
    (extractTimestamp noParseDatetime overflowEpoch 3 payloadOverflowTs =
      Except.error () ∧
     resend_webhook_view noParseDatetime overflowEpoch [] 3 []
        (BodyParse.ok payloadOverflowTs) =
      ⟨⟨500, internalErrorBody⟩, [], false⟩) := by
  have main := c9_timestamp_fallback noParseDatetime noParseEpoch [] 3 []
    payloadBadTs (Json.str "evt_9") (by decide) (by decide) (by decide)
    (by decide) (fun r hr => absurd hr (List.not_mem_nil r))
    (fun l hl => absurd hl (List.not_mem_nil l))
  have abortCase := c9_timestamp_fallback noParseDatetime overflowEpoch []
    3 [] payloadOverflowTs (Json.str "evt_1") (by decide) (by decide)
    (by decide) (by decide) (fun r hr => absurd hr (List.not_mem_nil r))
    (fun l hl => absurd hl (List.not_mem_nil l))
  exact ⟨⟨by decide, by decide, by decide, by decide, by decide⟩,
    main.1 (by decide), ⟨by rfl, abortCase.2 (by rfl)⟩⟩

end DjangoResend
